import Mathlib

/-!
Shallow embedding of the orchestration core of the Supervisor-Integration-Agent
repository (src/app): the planner (planner.py), the executor (executor.py), the
answer synthesizer (answer.py) and the registry lookup (registry.py).

Python values that flow through the core (JSON payloads, worker results) are
embedded as the inductive `PyVal`; Python dicts keyed by step id are embedded as
insertion-ordered association lists, matching Python dict semantics (first
insertion keeps its position, re-assignment overwrites in place, iteration is in
insertion order).  Fallible Python code is embedded with `Except`; an uncaught
Python exception is an `Except.error` value.  Numbers inside JSON are modelled
as integers (`Int`): no claim depends on fractional rendering, and floating
point is outside the model.  External effects (HTTP calls to workers, the LLM
backend, environment variables) are passed in as explicit function arguments,
so every definition is executable.
-/

/-- Embedded Python/JSON value: `None`, booleans, integers, strings, lists and
string-keyed dicts (insertion-ordered association lists). -/
inductive PyVal where
  | none : PyVal
  | bool : Bool → PyVal
  | int : Int → PyVal
  | str : String → PyVal
  | list : List PyVal → PyVal
  | dict : List (String × PyVal) → PyVal

/-- The Python exception kinds that the embedded code can raise or catch. -/
inductive PyErr where
  | valueError
  | typeError
  | attributeError
  | jsonDecodeError
deriving DecidableEq, Repr

/-- Single-quote character (used by Python `repr` of strings). -/
def aposChar : Char := Char.ofNat 39

/-- Double-quote character. -/
def quoteChar : Char := Char.ofNat 34

/-- Opening-brace character. -/
def lbraceChar : Char := Char.ofNat 123

/-- Closing-brace character. -/
def rbraceChar : Char := Char.ofNat 125

/-- Underscore character. -/
def underChar : Char := Char.ofNat 95

/-- Backslash character. -/
def backslashChar : Char := Char.ofNat 92

/-- Python `repr` escaping of one character inside a single-quoted string
(backslash, quote and the common control characters; other characters are kept
as-is). -/
def pyReprChar (c : Char) : String :=
  if c = backslashChar then String.mk [backslashChar, backslashChar]
  else if c = aposChar then String.mk [backslashChar, aposChar]
  else if c = Char.ofNat 10 then String.mk [backslashChar, Char.ofNat 110]
  else if c = Char.ofNat 13 then String.mk [backslashChar, Char.ofNat 114]
  else if c = Char.ofNat 9 then String.mk [backslashChar, Char.ofNat 116]
  else String.mk [c]

/-- Python `repr` of a string: single-quoted with escapes. -/
def pyReprStr (s : String) : String :=
  String.mk [aposChar] ++ String.join (s.toList.map pyReprChar) ++ String.mk [aposChar]

mutual

/-- Python `repr()` of an embedded value (`str()` and `repr()` agree on
containers; they differ only on top-level strings). -/
def pyRepr : PyVal → String
  | PyVal.none => "None"
  | PyVal.bool b => if b then "True" else "False"
  | PyVal.int n => toString n
  | PyVal.str s => pyReprStr s
  | PyVal.list xs => "[" ++ String.intercalate ", " (pyReprList xs) ++ "]"
  | PyVal.dict kvs => "\x7b" ++ String.intercalate ", " (pyReprDict kvs) ++ "\x7d"

/-- Python `repr` of each element of a Python list. -/
def pyReprList : List PyVal → List String
  | [] => []
  | x :: xs => pyRepr x :: pyReprList xs

/-- Python `repr` of each key/value pair of a Python dict. -/
def pyReprDict : List (String × PyVal) → List String
  | [] => []
  | (k, v) :: xs => (pyReprStr k ++ ": " ++ pyRepr v) :: pyReprDict xs

end

/-- Python `str()` of an embedded value. -/
def pyStr : PyVal → String
  | PyVal.str s => s
  | v => pyRepr v

/-- Python truthiness of an embedded value. -/
def pyTruthy : PyVal → Bool
  | PyVal.none => false
  | PyVal.bool b => b
  | PyVal.int n => n != 0
  | PyVal.str s => !s.isEmpty
  | PyVal.list xs => !xs.isEmpty
  | PyVal.dict kvs => !kvs.isEmpty

/-- Lookup in a string-keyed Python dict (association list). -/
def assocGet : List (String × PyVal) → String → Option PyVal
  | [], _ => Option.none
  | (k, v) :: rest, key => if k == key then some v else assocGet rest key

/-- Assignment `d[k] = v` in a string-keyed Python dict: overwrite in place if
the key exists, otherwise append. -/
def assocSet (kvs : List (String × PyVal)) (k : String) (v : PyVal) :
    List (String × PyVal) :=
  match kvs with
  | [] => [(k, v)]
  | (k2, v2) :: rest =>
    if k2 == k then (k2, v) :: rest else (k2, v2) :: assocSet rest k v

/-- Lookup in an `int`-keyed Python dict (association list), `d.get(k)`. -/
def dictGet {α : Type} : List (Int × α) → Int → Option α
  | [], _ => Option.none
  | (k, v) :: rest, key => if k == key then some v else dictGet rest key

/-- Assignment `d[k] = v` in an `int`-keyed Python dict. -/
def dictSet {α : Type} (kvs : List (Int × α)) (k : Int) (v : α) : List (Int × α) :=
  match kvs with
  | [] => [(k, v)]
  | (k2, v2) :: rest =>
    if k2 == k then (k2, v) :: rest else (k2, v2) :: dictSet rest k v

/-- Python `max(d.keys())` over an `int`-keyed Python dict (0 on the empty dict; the
source never takes the maximum of an empty dict). -/
def maxKey {α : Type} : List (Int × α) → Int
  | [] => 0
  | (k, _) :: rest => rest.foldl (fun m p => max m p.1) k

/-- The whitespace characters stripped by Python `int(str)` before parsing
(space, tab, newline, carriage return, vertical tab, form feed). -/
def pyIsSpace (c : Char) : Bool :=
  c = Char.ofNat 32 || c = Char.ofNat 9 || c = Char.ofNat 10 ||
  c = Char.ofNat 13 || c = Char.ofNat 11 || c = Char.ofNat 12

/-- Digits of a Python integer literal after the first digit: plain digits with
single underscores allowed between digits. -/
def pyDigitsGo (acc : Nat) : List Char → Option Nat
  | [] => some acc
  | c :: rest =>
    if c.isDigit then pyDigitsGo (acc * 10 + (c.toNat - 48)) rest
    else if c = underChar then
      match rest with
      | [] => Option.none
      | d :: rest2 =>
        if d.isDigit then pyDigitsGo (acc * 10 + (d.toNat - 48)) rest2
        else Option.none
    else Option.none

/-- The digit part of a Python integer literal: non-empty, starts with a
digit. -/
def pyDigits : List Char → Option Nat
  | [] => Option.none
  | c :: rest => if c.isDigit then pyDigitsGo (c.toNat - 48) rest else Option.none

/-- Python `int(str)`: strip whitespace, optional sign, digits (underscores
allowed between digits).  `Option.none` models the `ValueError` raise. -/
def pyParseInt (s : String) : Option Int :=
  let cs := (s.toList.dropWhile pyIsSpace).reverse.dropWhile pyIsSpace |>.reverse
  match cs with
  | c :: rest =>
    if c = Char.ofNat 43 then (pyDigits rest).map Int.ofNat
    else if c = Char.ofNat 45 then (pyDigits rest).map (fun n => -(Int.ofNat n))
    else (pyDigits cs).map Int.ofNat
  | [] => Option.none

/-- Does the first character list start with the second? -/
def charsStart : List Char → List Char → Bool
  | _, [] => true
  | [], _ :: _ => false
  | a :: as, b :: bs => a == b && charsStart as bs

/-- Contiguous containment of `needle` in a character list (Python
`needle in hay`). -/
def charsContain (needle : List Char) : List Char → Bool
  | [] => needle.isEmpty
  | c :: t => charsStart (c :: t) needle || charsContain needle t

/-- Python substring test `sub in hay`. -/
def strContains (hay sub : String) : Bool := charsContain sub.toList hay.toList

/-- Python `hay.startswith(sub)`. -/
def strStartsWith (hay sub : String) : Bool := charsStart hay.toList sub.toList

/-- Split a character list on a single separator character (Python
`s.split(sep)` for a one-character separator: trailing and leading
separators produce empty fields, the empty string gives one empty field). -/
def splitOnChar (sep : Char) : List Char → List (List Char)
  | [] => [[]]
  | c :: rest =>
    if c = sep then [] :: splitOnChar sep rest
    else
      match splitOnChar sep rest with
      | [] => [[c]]
      | g :: gs => (c :: g) :: gs

/-- Python `s.split(sep)` for a one-character separator, on strings. -/
def pySplitOnChar (s : String) (sep : Char) : List String :=
  (splitOnChar sep s.toList).map String.mk

/-- Python `s.lower()` (ASCII case mapping). -/
def strLower (s : String) : String := String.mk (s.toList.map Char.toLower)

/-- Python `s.upper()` (ASCII case mapping). -/
def strUpper (s : String) : String := String.mk (s.toList.map Char.toUpper)

/-- Python `s.strip()`: remove leading and trailing whitespace. -/
def strStrip (s : String) : String :=
  String.mk ((s.toList.dropWhile pyIsSpace).reverse.dropWhile pyIsSpace |>.reverse)

/-- Modelled from the spec: worker descriptor (`AgentMetadata` in the missing
`models.py`): name, description, allowed intents, transport kind and endpoint,
timeout (spec section 3, WorkerDescriptor). -/
structure AgentMetadata where
  name : String
  description : String := ""
  intents : List String := []
  type : String := "http"
  endpoint : Option String := Option.none
  healthcheck : Option String := Option.none
  timeout_ms : Int := 5000

/-- Modelled from the spec: the `output` payload of a handshake response
(`result`, optional `confidence`, optional `details`; spec section 3,
CallOutcome). -/
structure OutputModel where
  result : PyVal
  confidence : Option PyVal := Option.none
  details : Option String := Option.none

/-- Modelled from the spec: the `error` payload of a handshake response
(`kind`/`type` and `message`; spec section 3, CallOutcome). -/
structure ErrorModel where
  type : String
  message : String

/-- Modelled from the spec: one `CallOutcome` (`AgentResponse` in the missing
`models.py`): request id, agent name, status string, optional output, optional
error (spec sections 3 and 6). -/
structure AgentResponse where
  request_id : String := ""
  agent_name : String
  status : String
  output : Option OutputModel := Option.none
  error : Option ErrorModel := Option.none

/-- Modelled from the spec: `AgentResponse.is_success()` used by `answer.py`:
an outcome is successful when its status is the literal `success` (spec
section 3: `status (success | error)`). -/
def AgentResponse.is_success (r : AgentResponse) : Bool := r.status == "success"

/-- Modelled from the spec: one plan step (`PlanStep` in the missing
`models.py`): integer step id, agent name, intent, input-source directive
(spec section 3, PlanStep). -/
structure PlanStep where
  step_id : Int
  agent : String
  intent : String
  input_source : String
deriving DecidableEq, Repr

/-- Modelled from the spec: a plan is an ordered list of steps (spec
section 3, Plan). -/
structure Plan where
  steps : List PlanStep
deriving DecidableEq, Repr

/-- Modelled from the spec: the compact per-call log record (`UsedAgentEntry`):
agent name, intent, status (spec section 3, UsedAgentEntry). -/
structure UsedAgentEntry where
  name : String
  intent : String
  status : String
deriving DecidableEq, Repr

/-- From `registry.py`, `find_agent_by_name` (lines 162-166): first registry entry
with the given name; `Option.none` models the uncaught `KeyError` raise. -/
def find_agent_by_name (name : String) : List AgentMetadata → Option AgentMetadata
  | [] => Option.none
  | agent :: rest =>
    if agent.name == name then some agent else find_agent_by_name name rest

/-- From `executor.py`, `resolve_input` (lines 20-35): turn an `input_source`
directive into the text sent to the worker.  `user_query` resolves to the
query; `step:N...` resolves to `str(prior.output.result)` when step `N` is in
the outcome map and its `output` is present (pydantic model truthiness);
every other case falls back to the query.  The `int(...)` call is the only
fallible operation and its `ValueError` is caught by the source, so the
embedding is a total function. -/
def resolve_input (input_source : String) (user_query : String)
    (step_outputs : List (Int × AgentResponse)) : String :=
  if input_source == "user_query" then user_query
  else if strStartsWith input_source "step:" then
    let parts := pySplitOnChar input_source (Char.ofNat 58)
    if parts.length ≥ 2 then
      let step_id_str := (pySplitOnChar ((parts.get? 1).getD "") (Char.ofNat 46)).headD ""
      match pyParseInt step_id_str with
      | some step_id =>
        match dictGet step_outputs step_id with
        | some prior =>
          match prior.output with
          | some o => pyStr o.result
          | Option.none => user_query
        | Option.none => user_query
      | Option.none => user_query
    else user_query
  else user_query

/-- From `executor.py`, body of the `for step in plan.steps` loop of `execute_plan`
(lines 99-135), as one transition on the accumulated state.  The worker call
itself (`agent_caller.call_agent`, a module not in the sources; per spec
sections 4.3 and 7 it always converts transport failures into error outcomes
and never raises) is the explicit argument `callAgent`; the cascaded
`call_agent_with_trigger` HTTP exchange (lines 38-86) is the explicit argument
`callTrigger`.  A missing agent in the main lookup is the uncaught `KeyError`
(`Except.error`); the cascade's `KeyError` is caught (lines 130-132), and its
`except Exception` arm (lines 133-135) is vacuous here because `callTrigger`
is total. -/
def exec_step (query : String) (registry : List AgentMetadata)
    (callAgent : AgentMetadata → String → String → AgentResponse)
    (callTrigger : AgentMetadata → String → AgentResponse)
    (outs : List (Int × AgentResponse)) (used : List UsedAgentEntry)
    (step : PlanStep) :
    Except String (List (Int × AgentResponse) × List UsedAgentEntry) :=
  match find_agent_by_name step.agent registry with
  | Option.none => Except.error ("Agent " ++ step.agent ++ " not found in registry")
  | some agent_meta =>
    let text := resolve_input step.input_source query outs
    let response := callAgent agent_meta step.intent text
    let outs1 := dictSet outs step.step_id response
    let used1 := used ++ [⟨agent_meta.name, step.intent, response.status⟩]
    if step.agent == "KnowledgeBaseBuilderAgent" && response.status == "success"
        && step.intent == "create_task" then
      match find_agent_by_name "task_dependency_agent" registry with
      | Option.none => Except.ok (outs1, used1)
      | some tda_meta =>
        let tda_response := callTrigger tda_meta "task.resolve_dependencies"
        let next_step_id := if outs1.isEmpty then 0 else maxKey outs1 + 1
        Except.ok (dictSet outs1 next_step_id tda_response,
          used1 ++ [⟨tda_meta.name, "task.resolve_dependencies", tda_response.status⟩])
    else Except.ok (outs1, used1)

/-- From `executor.py`, the step loop of `execute_plan` folded over the remaining
steps, carrying the `step_outputs` dict and `used_agents` list. -/
def exec_steps (query : String) (registry : List AgentMetadata)
    (callAgent : AgentMetadata → String → String → AgentResponse)
    (callTrigger : AgentMetadata → String → AgentResponse) :
    List PlanStep → List (Int × AgentResponse) → List UsedAgentEntry →
    Except String (List (Int × AgentResponse) × List UsedAgentEntry)
  | [], outs, used => Except.ok (outs, used)
  | step :: rest, outs, used =>
    match exec_step query registry callAgent callTrigger outs used step with
    | Except.error e => Except.error e
    | Except.ok (outs2, used2) =>
      exec_steps query registry callAgent callTrigger rest outs2 used2

/-- From `executor.py`, `execute_plan` (lines 89-137): run every planned step in
order from empty accumulators.  `Except.error` is an uncaught exception: no
outcome map and no used-agent list reach the caller in that case. -/
def execute_plan (query : String) (plan : Plan) (registry : List AgentMetadata)
    (callAgent : AgentMetadata → String → String → AgentResponse)
    (callTrigger : AgentMetadata → String → AgentResponse) :
    Except String (List (Int × AgentResponse) × List UsedAgentEntry) :=
  exec_steps query registry callAgent callTrigger plan.steps [] []

/-- JSON whitespace (space, tab, line feed, carriage return). -/
def jsonIsWs (c : Char) : Bool :=
  c = Char.ofNat 32 || c = Char.ofNat 9 || c = Char.ofNat 10 || c = Char.ofNat 13

/-- Skip JSON whitespace. -/
def jsonSkipWs (cs : List Char) : List Char := cs.dropWhile jsonIsWs

/-- Value of a hexadecimal digit. -/
def jsonHexVal (c : Char) : Option Nat :=
  if c.isDigit then some (c.toNat - 48)
  else if 97 ≤ c.toNat && c.toNat ≤ 102 then some (c.toNat - 87)
  else if 65 ≤ c.toNat && c.toNat ≤ 70 then some (c.toNat - 55)
  else Option.none

/-- Consume an exact literal (used for `null`, `true`, `false`). -/
def jsonExpect : List Char → List Char → Option (List Char)
  | cs, [] => some cs
  | [], _ :: _ => Option.none
  | c :: cs, l :: ls => if c = l then jsonExpect cs ls else Option.none

/-- Body of a JSON string after the opening quote: accumulate characters until
the closing quote, handling the standard escapes. -/
def jsonStrGo (acc : List Char) : List Char → Option (String × List Char)
  | [] => Option.none
  | c :: rest =>
    if c = quoteChar then some (String.mk acc.reverse, rest)
    else if c = backslashChar then
      match rest with
      | [] => Option.none
      | e :: rest2 =>
        if e = quoteChar then jsonStrGo (quoteChar :: acc) rest2
        else if e = backslashChar then jsonStrGo (backslashChar :: acc) rest2
        else if e = Char.ofNat 47 then jsonStrGo (Char.ofNat 47 :: acc) rest2
        else if e = Char.ofNat 98 then jsonStrGo (Char.ofNat 8 :: acc) rest2
        else if e = Char.ofNat 102 then jsonStrGo (Char.ofNat 12 :: acc) rest2
        else if e = Char.ofNat 110 then jsonStrGo (Char.ofNat 10 :: acc) rest2
        else if e = Char.ofNat 114 then jsonStrGo (Char.ofNat 13 :: acc) rest2
        else if e = Char.ofNat 116 then jsonStrGo (Char.ofNat 9 :: acc) rest2
        else if e = Char.ofNat 117 then
          match rest2 with
          | a :: b :: c2 :: d :: rest3 =>
            match jsonHexVal a, jsonHexVal b, jsonHexVal c2, jsonHexVal d with
            | some x, some y, some z, some w =>
              jsonStrGo (Char.ofNat (((x * 16 + y) * 16 + z) * 16 + w) :: acc) rest3
            | _, _, _, _ => Option.none
          | _ => Option.none
        else Option.none
    else if c.toNat < 32 then Option.none
    else jsonStrGo (c :: acc) rest

/-- Consume a run of decimal digits. -/
def jsonDigitsGo (acc : Nat) : List Char → Nat × List Char
  | [] => (acc, [])
  | c :: rest =>
    if c.isDigit then jsonDigitsGo (acc * 10 + (c.toNat - 48)) rest
    else (acc, c :: rest)

/-- A JSON number.  Only integers are modelled: a fractional part or exponent
(which Python would decode as a float) is treated as a decode failure, since
floating point is outside the model. -/
def jsonParseNum (cs : List Char) : Option (PyVal × List Char) :=
  let (neg, cs1) :=
    match cs with
    | c :: rest => if c = Char.ofNat 45 then (true, rest) else (false, cs)
    | [] => (false, cs)
  match cs1 with
  | [] => Option.none
  | c :: rest =>
    if !c.isDigit then Option.none
    else
      let (n, rest2) :=
        if c = Char.ofNat 48 then (0, rest) else jsonDigitsGo (c.toNat - 48) rest
      match rest2 with
      | d :: _ =>
        if d = Char.ofNat 46 || d = Char.ofNat 101 || d = Char.ofNat 69 || d.isDigit
        then Option.none
        else some (PyVal.int (if neg then -(Int.ofNat n) else Int.ofNat n), rest2)
      | [] => some (PyVal.int (if neg then -(Int.ofNat n) else Int.ofNat n), [])

mutual

/-- Recursive-descent JSON value, fuel-bounded (the fuel chosen by
`json_loads` always suffices because every recursive call consumes input). -/
def jsonParseVal : Nat → List Char → Option (PyVal × List Char)
  | 0, _ => Option.none
  | fuel + 1, cs =>
    match jsonSkipWs cs with
    | [] => Option.none
    | c :: rest =>
      if c = quoteChar then
        (jsonStrGo [] rest).map (fun p => (PyVal.str p.1, p.2))
      else if c = lbraceChar then
        match jsonSkipWs rest with
        | d :: rest2 =>
          if d = rbraceChar then some (PyVal.dict [], rest2)
          else jsonParseObj fuel [] rest
        | [] => Option.none
      else if c = Char.ofNat 91 then
        match jsonSkipWs rest with
        | d :: rest2 =>
          if d = Char.ofNat 93 then some (PyVal.list [], rest2)
          else jsonParseArr fuel [] rest
        | [] => Option.none
      else if c = Char.ofNat 110 then
        (jsonExpect rest [Char.ofNat 117, Char.ofNat 108, Char.ofNat 108]).map
          (fun r => (PyVal.none, r))
      else if c = Char.ofNat 116 then
        (jsonExpect rest [Char.ofNat 114, Char.ofNat 117, Char.ofNat 101]).map
          (fun r => (PyVal.bool true, r))
      else if c = Char.ofNat 102 then
        (jsonExpect rest [Char.ofNat 97, Char.ofNat 108, Char.ofNat 115, Char.ofNat 101]).map
          (fun r => (PyVal.bool false, r))
      else jsonParseNum (c :: rest)

/-- Comma-separated JSON array items up to the closing bracket. -/
def jsonParseArr : Nat → List PyVal → List Char → Option (PyVal × List Char)
  | 0, _, _ => Option.none
  | fuel + 1, acc, cs =>
    match jsonParseVal fuel cs with
    | Option.none => Option.none
    | some (v, r) =>
      match jsonSkipWs r with
      | d :: r2 =>
        if d = Char.ofNat 44 then jsonParseArr fuel (v :: acc) r2
        else if d = Char.ofNat 93 then some (PyVal.list (v :: acc).reverse, r2)
        else Option.none
      | [] => Option.none

/-- Comma-separated JSON object members up to the closing brace (duplicate keys
behave like repeated Python dict assignment: last value wins, first position is
kept). -/
def jsonParseObj : Nat → List (String × PyVal) → List Char → Option (PyVal × List Char)
  | 0, _, _ => Option.none
  | fuel + 1, acc, cs =>
    match jsonSkipWs cs with
    | q :: rest =>
      if q = quoteChar then
        match jsonStrGo [] rest with
        | Option.none => Option.none
        | some (key, r) =>
          match jsonSkipWs r with
          | col :: r2 =>
            if col = Char.ofNat 58 then
              match jsonParseVal fuel r2 with
              | Option.none => Option.none
              | some (v, r3) =>
                match jsonSkipWs r3 with
                | d :: r4 =>
                  if d = Char.ofNat 44 then jsonParseObj fuel (assocSet acc key v) r4
                  else if d = rbraceChar then some (PyVal.dict (assocSet acc key v), r4)
                  else Option.none
                | [] => Option.none
            else Option.none
          | [] => Option.none
      else Option.none
    | [] => Option.none

end

/-- Python `json.loads` on a string: parse one JSON value followed only by
whitespace; any failure is the `json.JSONDecodeError` raise. -/
def json_loads (s : String) : Except PyErr PyVal :=
  match jsonParseVal (2 * s.length + 16) s.toList with
  | some (v, rest) =>
    if (jsonSkipWs rest).isEmpty then Except.ok v else Except.error PyErr.jsonDecodeError
  | Option.none => Except.error PyErr.jsonDecodeError

/-- Python `len()` of an embedded value (`TypeError` on unsized values). -/
def pyLenE : PyVal → Except PyErr Nat
  | PyVal.str s => Except.ok s.length
  | PyVal.list xs => Except.ok xs.length
  | PyVal.dict kvs => Except.ok kvs.length
  | _ => Except.error PyErr.typeError

/-- Python iteration over an embedded value: list elements, string characters,
dict keys; `TypeError` otherwise. -/
def pyIterE : PyVal → Except PyErr (List PyVal)
  | PyVal.str s => Except.ok (s.toList.map (fun c => PyVal.str (String.mk [c])))
  | PyVal.list xs => Except.ok xs
  | PyVal.dict kvs => Except.ok (kvs.map (fun kv => PyVal.str kv.1))
  | _ => Except.error PyErr.typeError

/-- Python `v.get(key, default)`: dict lookup with default; calling `.get` on a
non-dict raises `AttributeError`. -/
def pyDictGetE (v : PyVal) (key : String) (dflt : PyVal) : Except PyErr PyVal :=
  match v with
  | PyVal.dict kvs => Except.ok ((assocGet kvs key).getD dflt)
  | _ => Except.error PyErr.attributeError

/-- The f-string conversion `f"\x7bscore:.1%\x7d"` of `answer.py` line 94: on a
number it renders the value times 100 with one decimal digit (in this integer
model, `n * 100` followed by `.0%`; Python bools format as their integer
value); on a string it raises `ValueError` (unknown format code `%` for `str`)
and on `None`, lists and dicts it raises `TypeError` — neither of which the
caller catches. -/
def pyFormatPct (v : PyVal) : Except PyErr String :=
  match v with
  | PyVal.int n => Except.ok (toString (n * 100) ++ ".0%")
  | PyVal.bool b => Except.ok (if b then "100.0%" else "0.0%")
  | PyVal.str _ => Except.error PyErr.valueError
  | _ => Except.error PyErr.typeError

/-- Python `v.upper()`: `AttributeError` unless `v` is a string. -/
def pyUpperE : PyVal → Except PyErr String
  | PyVal.str s => Except.ok (strUpper s)
  | _ => Except.error PyErr.attributeError

/-- Python `v == "lit"` between an embedded value and a string literal. -/
def pyEqStr (v : PyVal) (lit : String) : Bool :=
  match v with
  | PyVal.str t => t == lit
  | _ => false

/-- From `answer.py`, the spelling-error loop of `format_review_as_markdown`
(lines 104-108): one bullet per entry, an optional location line, and a blank
line. -/
def spelling_lines : List PyVal → Except PyErr (List String)
  | [] => Except.ok []
  | err :: rest => do
    let e ← pyDictGetE err "error" (PyVal.str "N/A")
    let sug ← pyDictGetE err "suggestion" (PyVal.str "N/A")
    let loc ← pyDictGetE err "location" PyVal.none
    let locLines := if pyTruthy loc then ["  - *Location: " ++ pyStr loc ++ "*"] else []
    let tail ← spelling_lines rest
    Except.ok ((("- **" ++ pyStr e ++ "** → " ++ pyStr sug) :: locLines) ++ [""] ++ tail)

/-- From `answer.py`, the grammar-error loop of `format_review_as_markdown`
(lines 114-120): like the spelling loop with an extra optional type line. -/
def grammar_lines : List PyVal → Except PyErr (List String)
  | [] => Except.ok []
  | err :: rest => do
    let e ← pyDictGetE err "error" (PyVal.str "N/A")
    let sug ← pyDictGetE err "suggestion" (PyVal.str "N/A")
    let ty ← pyDictGetE err "type" PyVal.none
    let tyLines := if pyTruthy ty then ["  - *Type: " ++ pyStr ty ++ "*"] else []
    let loc ← pyDictGetE err "location" PyVal.none
    let locLines := if pyTruthy loc then ["  - *Location: " ++ pyStr loc ++ "*"] else []
    let tail ← grammar_lines rest
    Except.ok ((("- **" ++ pyStr e ++ "** → " ++ pyStr sug) :: tyLines) ++ locLines ++ [""] ++ tail)

/-- From `answer.py`, the compliance-issue loop of `format_review_as_markdown`
(lines 126-132): severity indicator, upper-cased severity, issue text, optional
suggestion line, blank line. -/
def compliance_lines : List PyVal → Except PyErr (List String)
  | [] => Except.ok []
  | issue :: rest => do
    let severity ← pyDictGetE issue "severity" (PyVal.str "unknown")
    let emoji :=
      if pyEqStr severity "high" then "🔴"
      else if pyEqStr severity "medium" then "🟡" else "🟢"
    let up ← pyUpperE severity
    let itext ← pyDictGetE issue "issue" (PyVal.str "N/A")
    let sug ← pyDictGetE issue "suggestion" PyVal.none
    let sugLines := if pyTruthy sug then ["  - *Suggestion: " ++ pyStr sug ++ "*"] else []
    let tail ← compliance_lines rest
    Except.ok ((("- " ++ emoji ++ " **" ++ up ++ "**: " ++ pyStr itext) :: sugLines) ++ [""] ++ tail)

/-- From `answer.py`, `format_review_as_markdown` (lines 88-134): deterministic
markdown rendering of a document-review payload.  The `Except.error` values are
the uncaught Python exceptions: reading a key of a non-dict payload raises
`AttributeError`, formatting a non-numeric `overall_score` with `.1%` raises
`ValueError` (strings) or `TypeError` (`None`, lists, dicts), and `len()` of a
truthy non-sized section value raises `TypeError`. -/
def format_review_as_markdown (review_data : PyVal) : Except PyErr String := do
  let score ← pyDictGetE review_data "overall_score" (PyVal.int 0)
  let summary ← pyDictGetE review_data "summary" (PyVal.str "")
  let pct ← pyFormatPct score
  let md1 := ["## Document Review Summary\n", "**Overall Score:** " ++ pct ++ "\n"] ++
    (if pyTruthy summary then [pyStr summary ++ "\n"] else [])
  let spelling ← pyDictGetE review_data "spelling_errors" (PyVal.list [])
  let md2 ←
    if pyTruthy spelling then do
      let n ← pyLenE spelling
      let items ← pyIterE spelling
      let lines ← spelling_lines items
      pure (md1 ++ ["\n### Spelling Errors (" ++ toString n ++ ")\n"] ++ lines)
    else pure md1
  let grammar ← pyDictGetE review_data "grammar_errors" (PyVal.list [])
  let md3 ←
    if pyTruthy grammar then do
      let n ← pyLenE grammar
      let items ← pyIterE grammar
      let lines ← grammar_lines items
      pure (md2 ++ ["\n### Grammar Errors (" ++ toString n ++ ")\n"] ++ lines)
    else pure md2
  let compliance ← pyDictGetE review_data "compliance_issues" (PyVal.list [])
  let md4 ←
    if pyTruthy compliance then do
      let n ← pyLenE compliance
      let items ← pyIterE compliance
      let lines ← compliance_lines items
      pure (md3 ++ ["\n### Compliance Issues (" ++ toString n ++ ")\n"] ++ lines)
    else pure md3
  Except.ok (String.intercalate "\n" md4)

/-- The possible states of the answer-synthesis LLM backend in `answer.py`
(lines 45-85), folded into one explicit argument: `unavailable` is "the openai
module is missing or OPENROUTER_API_KEY is unset" (line 46), `constructFails`
is "the OpenAI client constructor raised" (lines 49-55), `callFails` is "the
chat-completion call raised" (lines 84-85), `emptyChoices` is "the response
had no choices" (line 83), and `answers` carries the model's reply text. -/
inductive AnswerBackend where
  | unavailable
  | constructFails
  | callFails
  | emptyChoices
  | answers (content : String)

/-- From `answer.py` line 28: the successful outcomes, in outcome-map iteration
(insertion) order. -/
def successful_of (step_outputs : List (Int × AgentResponse)) : List AgentResponse :=
  (step_outputs.map Prod.snd).filter (fun s => s.is_success)

/-- From `answer.py` line 33: the stitched fallback — the stringified results of the
successful outcomes that carry an output, joined by `" | "`. -/
def stitched_of (successful : List AgentResponse) : String :=
  String.intercalate " | " (successful.filterMap (fun s => s.output.map (fun o => pyStr o.result)))

/-- From `answer.py` lines 39-40: `json.loads(str(result))` followed by the markdown
rendering, both inside the same `try`. -/
def review_attempt (result : PyVal) : Except PyErr String :=
  match json_loads (pyStr result) with
  | Except.error e => Except.error e
  | Except.ok d => format_review_as_markdown d

/-- From `answer.py`, the document-reviewer loop of `compose_final_answer`
(lines 36-43): return the markdown for the first successful
`document_reviewer_agent` outcome whose parse-and-render attempt succeeds;
`json.JSONDecodeError` and `AttributeError` fall through to the next outcome
(the source's `except` clause), any other exception propagates. -/
def reviewer_scan : List AgentResponse → Except PyErr (Option String)
  | [] => Except.ok Option.none
  | s :: rest =>
    match s.output with
    | some o =>
      if s.agent_name == "document_reviewer_agent" then
        match review_attempt o.result with
        | Except.ok md => Except.ok (some md)
        | Except.error PyErr.jsonDecodeError => reviewer_scan rest
        | Except.error PyErr.attributeError => reviewer_scan rest
        | Except.error e => Except.error e
      else reviewer_scan rest
    | Option.none => reviewer_scan rest

/-- From `answer.py`, `compose_final_answer` (lines 22-85): out-of-scope message on
an empty outcome map, total-failure message when no outcome succeeded,
otherwise the reviewer markdown if the reviewer loop returns one, and finally
the backend-dependent branch: the stitched fallback when the backend is
unavailable or fails, the prefixed stitched text when client construction
fails, or the model's stripped reply.  The conversation history only feeds the
LLM prompt, so it cannot influence the result beyond the `answers` content. -/
def compose_final_answer (query : String) (step_outputs : List (Int × AgentResponse))
    (history : Option PyVal) (backend : AnswerBackend) : Except PyErr String :=
  if step_outputs.isEmpty then Except.ok "This information is not in my scope."
  else
    let successful := successful_of step_outputs
    if successful.isEmpty then
      Except.ok "I could not complete your request because every tool failed. Please try again."
    else
      let stitched := stitched_of successful
      match reviewer_scan successful with
      | Except.error e => Except.error e
      | Except.ok (some md) => Except.ok md
      | Except.ok Option.none =>
        match backend with
        | AnswerBackend.unavailable => Except.ok stitched
        | AnswerBackend.constructFails =>
          Except.ok ("Based on the tools, here is what I found: " ++ stitched)
        | AnswerBackend.callFails => Except.ok stitched
        | AnswerBackend.emptyChoices => Except.ok stitched
        | AnswerBackend.answers content => Except.ok (strStrip content)

/-- One row of the planner's heuristic rule chain: a predicate over the
lowercased query and the fixed plan it returns. -/
structure HeurRule where
  cond : String → Bool
  plan : Plan

/-- Python `any(keyword in lower_q for keyword in [...])`. -/
def kwAny (ks : List String) : String → Bool :=
  fun lower_q => ks.any (fun k => strContains lower_q k)

/-- The recurring single-step plan literal of `planner.py`:
`Plan(steps=[PlanStep(step_id=0, agent=..., intent=..., input_source="user_query")])`. -/
def oneStep (agent intent : String) : Plan :=
  Plan.mk [PlanStep.mk 0 agent intent "user_query"]

/-- From `planner.py`, the ordered heuristic chain of `plan_tools_with_llm`
(lines 75-498), one row per `if ... return Plan(...)` block, in source order.
The source evaluates these conditions top to bottom and returns the first
matching block's plan, which is exactly first-match over this list. -/
def heuristic_table : List HeurRule := [
  -- lines 77-97: start focus monitoring (deadline data feeds the enforcer)
  ⟨kwAny ["start focus mode", "turn on focus", "enable focus", "focus mode on",
      "start monitoring", "start focus", "begin monitoring", "track my focus",
      "monitor my activity", "watch my productivity"],
    Plan.mk [PlanStep.mk 0 "deadline_guardian_agent" "deadline.monitor" "user_query",
      PlanStep.mk 1 "focus_enforcer_agent" "focus.start_monitoring" "step:0.output.result"]⟩,
  -- lines 99-119: analyze focus
  ⟨kwAny ["focus", "distracted", "distraction", "productivity", "procrastinating",
      "am i focused", "check my focus", "analyze focus", "focus score",
      "how productive", "staying on task", "off task"],
    Plan.mk [PlanStep.mk 0 "deadline_guardian_agent" "deadline.monitor" "user_query",
      PlanStep.mk 1 "focus_enforcer_agent" "focus.analyze" "step:0.output.result"]⟩,
  -- lines 122-135: stop focus monitoring
  ⟨kwAny ["stop monitoring", "stop focus", "end monitoring", "stop tracking",
      "turn off focus", "disable focus", "focus mode off"],
    oneStep "focus_enforcer_agent" "focus.stop_monitoring"⟩,
  -- lines 138-150: focus status
  ⟨kwAny ["focus status", "monitoring status", "is focus on", "focus running"],
    oneStep "focus_enforcer_agent" "focus.check_status"⟩,
  -- lines 153-166: onboarding
  ⟨kwAny ["onboard", "onboarding", "new hire", "new employee",
      "employee setup", "hire someone", "add employee"],
    oneStep "onboarding_buddy_agent" "onboarding.create"⟩,
  -- lines 169-182: update employee
  ⟨kwAny ["update employee", "change employee", "modify employee",
      "edit employee", "update onboarding"],
    oneStep "onboarding_buddy_agent" "onboarding.update"⟩,
  -- lines 185-199: employee progress
  ⟨kwAny ["employee progress", "onboarding progress", "employee status",
      "check employee", "employee completion", "profile completion",
      "onboarding status"],
    oneStep "onboarding_buddy_agent" "onboarding.check_progress"⟩,
  -- lines 202-212: task creation
  ⟨kwAny ["create task", "new task", "add task", "task:", "i need to",
      "implement", "fix bug"],
    oneStep "KnowledgeBaseBuilderAgent" "create_task"⟩,
  -- lines 215-225: summarization (checked before deadline/risk)
  ⟨kwAny ["summary", "summarize", "condense"],
    oneStep "document_summarizer_agent" "summary.create"⟩,
  -- lines 229-246: budget risk (conjunction of a risk phrase and a budget term)
  ⟨fun lower_q =>
      kwAny ["overspending risk", "budget risk", "financial risk", "spending risk",
        "risks for overspending", "risk of overspending", "overspending risks",
        "budget risks", "financial risks", "spending risks",
        "analyze risk", "analyze risks", "risks for", "risk for"] lower_q
      && kwAny ["overspending", "spending", "budget", "financial", "expense", "cost"] lower_q,
    oneStep "budget_tracker_agent" "budget.question"⟩,
  -- lines 249-259: deadline monitoring
  ⟨kwAny ["deadline", "due date", "risk", "slip"],
    oneStep "deadline_guardian_agent" "deadline.monitor"⟩,
  -- lines 262-272: meeting follow-up
  ⟨kwAny ["follow-up", "followup", "action item", "minutes"],
    oneStep "meeting_followup_agent" "meeting.followup"⟩,
  -- lines 275-285: task dependencies
  ⟨kwAny ["dependency", "depends on", "blocked by", "analyze dependencies"],
    oneStep "task_dependency_agent" "task.resolve_dependencies"⟩,
  -- lines 288-298: email priority
  ⟨kwAny ["email", "inbox", "priority"],
    oneStep "email_priority_agent" "email.prioritize"⟩,
  -- lines 301-311: progress tracking
  ⟨kwAny ["progress", "goal", "task status"],
    oneStep "progress_accountability_agent" "progress.track"⟩,
  -- lines 315-390: budget keyword routing
  ⟨kwAny ["budget", "budgets", "budgeting", "budgeted",
      "spending", "spent", "spend", "spends", "spender",
      "expense", "expenses", "expenditure", "expenditures", "expend",
      "cost", "costs", "costing", "costed",
      "financial", "finance", "finances", "financing",
      "money", "monetary", "funds", "funding", "funded",
      "allocation", "allocate", "allocated", "allocating",
      "track", "tracking", "tracked", "tracks",
      "monitor", "monitoring", "monitored", "monitors",
      "overspending", "overspend", "overspent", "over budget", "over-budget",
      "remaining", "remain", "remains", "balance", "balances", "left over",
      "limit", "limits", "limited", "limiting", "budget limit", "budget cap",
      "forecast", "forecasts", "forecasting", "forecasted",
      "predict", "predicts", "prediction", "predictions", "predicting", "predicted",
      "analyze", "analyzes", "analysis", "analyses", "analyzing", "analyzed",
      "analytics", "analytical",
      "report", "reports", "reporting", "reported",
      "summary", "summaries", "summarize", "summarizing", "summarized",
      "recommend", "recommends", "recommendation", "recommendations",
      "recommending", "recommended",
      "suggestion", "suggestions", "suggest", "suggests", "suggesting", "suggested",
      "advice", "advise", "advises", "advising", "advised",
      "anomaly", "anomalies", "anomalous", "unusual spending", "unusual expense",
      "status", "state", "current budget", "budget status", "budget state",
      "check budget", "budget check", "view budget", "show budget",
      "project budget", "project cost", "project costs", "project spending",
      "project expense", "project expenses", "project financial",
      "projects", "project list", "list projects", "all projects", "current projects",
      "projects and budgets", "show projects", "list all projects", "what projects",
      "which projects", "my projects", "project list", "list of projects",
      "all my projects", "current projects", "active projects", "project overview",
      "projects with budgets", "projects budget", "project budgets",
      "update budget", "update spending", "add expense", "add spending",
      "record expense", "log expense", "log spending", "enter expense",
      "how much", "how much left", "how much remaining", "what\x27s my budget",
      "what is my budget", "budget question", "budget query",
      "manage budget", "budget management", "control spending", "spending control",
      "budget control", "financial management", "expense management"],
    oneStep "budget_tracker_agent" "budget.question"⟩,
  -- lines 394-404: create goal
  ⟨kwAny ["create goal", "new goal", "add goal"],
    oneStep "productivity_agent" "goal.create"⟩,
  -- lines 407-417: update goal progress
  ⟨kwAny ["update goal", "goal progress", "progress update"],
    oneStep "productivity_agent" "goal.update"⟩,
  -- lines 420-430: reflection / journaling
  ⟨kwAny ["add reflection", "journal", "daily log", "reflection", "wrote"],
    oneStep "productivity_agent" "reflection.add"⟩,
  -- lines 433-443: insights
  ⟨kwAny ["insight"], oneStep "productivity_agent" "productivity.insights"⟩,
  -- lines 446-456: accountability
  ⟨kwAny ["accountability"], oneStep "productivity_agent" "productivity.accountability"⟩,
  -- lines 459-469: general analysis
  ⟨kwAny ["analysis", "analyze", "trend", "pattern"],
    oneStep "productivity_agent" "productivity.analyze"⟩,
  -- lines 472-482: report generation
  ⟨kwAny ["report"], oneStep "productivity_agent" "productivity.report"⟩,
  -- lines 485-498: document review
  ⟨kwAny ["review document", "check spelling", "grammar check", "compliance check",
      "proofread", "docx", "document review", "review"],
    oneStep "document_reviewer_agent" "document.review"⟩]

/-- First-match evaluation of the heuristic chain: the plan of the first rule
whose condition holds on the lowercased query, if any. -/
def first_match : List HeurRule → String → Option Plan
  | [], _ => Option.none
  | r :: rest, lower_q => if r.cond lower_q then some r.plan else first_match rest lower_q

/-- Whether heuristic rule number `i` (0-based source order) fires on a
lowercased query. -/
def rule_fires (i : Nat) (lower_q : String) : Bool :=
  match heuristic_table.get? i with
  | some r => r.cond lower_q
  | Option.none => false

/-- Modelled from the spec: `PlanStep(**step)` pydantic validation of one raw
LLM-produced step (`models.py` is not in the sources; spec section 3 gives the
shape: integer `step_id`, string `agent`, `intent`, `input_source`).
`Option.none` models the validation exception caught by `_validate_steps`. -/
def parse_plan_step (v : PyVal) : Option PlanStep :=
  match v with
  | PyVal.dict kvs =>
    match assocGet kvs "step_id", assocGet kvs "agent",
        assocGet kvs "intent", assocGet kvs "input_source" with
    | some (PyVal.int n), some (PyVal.str a), some (PyVal.str i), some (PyVal.str s) =>
      some (PlanStep.mk n a i s)
    | _, _, _, _ => Option.none
  | _ => Option.none

/-- From `planner.py` line 26: `registry_map = \x7ba.name: a for a in registry\x7d`
followed by `.get(name)` — a later registry entry with the same name
overwrites an earlier one. -/
def registry_get (registry : List AgentMetadata) (name : String) : Option AgentMetadata :=
  registry.foldl (fun acc a => if a.name == name then some a else acc) Option.none

/-- From `planner.py`, `_validate_steps` (lines 23-48): keep a raw step only when it
deserializes into the PlanStep shape, its agent is in the registry map and its
intent is among that agent's intents; every failing step is skipped and the
loop continues. -/
def validate_steps (raw_steps : List PyVal) (registry : List AgentMetadata) : List PlanStep :=
  match raw_steps with
  | [] => []
  | step :: rest =>
    match parse_plan_step step with
    | Option.none => validate_steps rest registry
    | some step_obj =>
      match registry_get registry step_obj.agent with
      | Option.none => validate_steps rest registry
      | some agent_meta =>
        if agent_meta.intents.contains step_obj.intent then
          step_obj :: validate_steps rest registry
        else validate_steps rest registry

/-- The step-survival check of `_validate_steps` as one predicate: the step's
agent is in the registry map and its intent is allowed there. -/
def step_allowed (registry : List AgentMetadata) (s : PlanStep) : Bool :=
  match registry_get registry s.agent with
  | some agent_meta => agent_meta.intents.contains s.intent
  | Option.none => false

/-- The LLM planning backend of `planner.py` (lines 530-541) as an explicit
argument: `respond` is the chat-completion exchange built from the query, the
registry briefing and the recent history; `Except.error` is a raised call,
`Except.ok Option.none` is an empty `choices` list (content becomes the empty
string), and `Except.ok (some raw)` is the raw reply before `.strip()`. -/
structure LLMClient where
  respond : String → List AgentMetadata → Option PyVal → Except String (Option String)

/-- From `planner.py` lines 543-551: parse the reply as JSON, take its `steps`
field (default empty list), validate against the registry; any shape that
would raise (non-object reply, non-list `steps` whose iteration or unpacking
fails) collapses to the empty plan through the enclosing `except`. -/
def llm_content_plan (content : String) (registry : List AgentMetadata) : Plan :=
  match json_loads content with
  | Except.error _ => Plan.mk []
  | Except.ok pj =>
    match pj with
    | PyVal.dict kvs =>
      match (assocGet kvs "steps").getD (PyVal.list []) with
      | PyVal.list xs => Plan.mk (validate_steps xs registry)
      | _ => Plan.mk []
    | _ => Plan.mk []

/-- From `planner.py` lines 530-551: the LLM fallback path once a client exists —
call the model (a raised call is an empty plan), strip the content, then parse
and validate. -/
def llm_plan_path (query : String) (registry : List AgentMetadata)
    (history : Option PyVal) (c : LLMClient) : Plan :=
  match c.respond query registry history with
  | Except.error _ => Plan.mk []
  | Except.ok Option.none => llm_content_plan "" registry
  | Except.ok (some raw) => llm_content_plan (strStrip raw) registry

/-- From `planner.py`, `plan_tools_with_llm` (lines 69-551): lowercase the query,
try the heuristic chain first (first match returns immediately, consulting
neither the registry nor any LLM), otherwise fall back to the LLM path; the
`client` argument is the result of `_get_openrouter_client()` (lines 51-63),
which is `Option.none` when the openai module is missing, no
`OPENROUTER_API_KEY` is set, or client construction raised — in which case the
plan is empty (out of scope). -/
def plan_tools_with_llm (query : String) (registry : List AgentMetadata)
    (history : Option PyVal) (client : Option LLMClient) : Plan :=
  let lower_q := strLower query
  match first_match heuristic_table lower_q with
  | some p => p
  | Option.none =>
    match client with
    | Option.none => Plan.mk []
    | some c => llm_plan_path query registry history c

/-- The step-reference reading of an `input_source` directive, factored out of
`resolve_input`: the integer `N` of a well-formed `step:N...` reference
(split on `:`, take the part before the first `.`, parse as a Python int);
`Option.none` for the literal `user_query` and for every malformed or
non-integer reference. -/
def step_ref (input_source : String) : Option Int :=
  if input_source == "user_query" then Option.none
  else if strStartsWith input_source "step:" then
    let parts := pySplitOnChar input_source (Char.ofNat 58)
    if parts.length ≥ 2 then
      pyParseInt ((pySplitOnChar ((parts.get? 1).getD "") (Char.ofNat 46)).headD "")
    else Option.none
  else Option.none

/-- Fixture: the task-creation worker's registry entry, as in
`registry.py` lines 66-74 (endpoint fields omitted; the call itself is an
explicit oracle in this embedding). -/
def kbbMetaW : AgentMetadata :=
  { name := "KnowledgeBaseBuilderAgent",
    intents := ["create_task", "add_task", "task.create", "task.add"] }

/-- Fixture: the dependency-resolution worker's registry entry, as in
`registry.py` lines 75-83. -/
def tdaMetaW : AgentMetadata :=
  { name := "task_dependency_agent", intents := ["task.resolve_dependencies"] }

/-- Fixture: a worker oracle that always answers success. -/
def caW : AgentMetadata → String → String → AgentResponse := fun meta _ _ =>
  { request_id := "req-main", agent_name := meta.name, status := "success",
    output := some { result := PyVal.str "task stored" } }

/-- Fixture: a cascade oracle whose call always fails with a network error. -/
def ctW : AgentMetadata → String → AgentResponse := fun meta _ =>
  { request_id := "req-cascade", agent_name := meta.name, status := "error",
    error := some { type := "network_error", message := "timeout" } }

/-- Fixture: the single task-creation plan step. -/
def kbbStepW : PlanStep := PlanStep.mk 0 "KnowledgeBaseBuilderAgent" "create_task" "user_query"

/-- Fixture: the recorded outcome of the triggering step under `caW`. -/
def respW : AgentResponse :=
  { request_id := "req-main", agent_name := "KnowledgeBaseBuilderAgent", status := "success",
    output := some { result := PyVal.str "task stored" } }

/-- Fixture: the recorded outcome of the cascaded call under `ctW`. -/
def tdaRespW : AgentResponse :=
  { request_id := "req-cascade", agent_name := "task_dependency_agent", status := "error",
    error := some { type := "network_error", message := "timeout" } }

/-- Embedding fact: `resolve_input` factored through `step_ref`: resolve to the stringified
result exactly when the directive is a well-formed reference to a recorded
step whose output is present; otherwise the query. -/
theorem resolve_input_eq (input_source user_query : String)
    (step_outputs : List (Int × AgentResponse)) :
    resolve_input input_source user_query step_outputs =
      (match step_ref input_source with
      | some n =>
        match dictGet step_outputs n with
        | some prior =>
          match prior.output with
          | some o => pyStr o.result
          | Option.none => user_query
        | Option.none => user_query
      | Option.none => user_query) := by
  unfold resolve_input step_ref
  by_cases h1 : input_source == "user_query"
  · simp [h1]
  · simp only [h1, Bool.false_eq_true, if_false]
    by_cases h2 : strStartsWith input_source "step:"
    · simp only [h2, if_true]
      by_cases h3 : (pySplitOnChar input_source (Char.ofNat 58)).length ≥ 2
      · simp only [h3, if_true]
      · simp [h3]
    · simp [h2]

/-- C1: `resolve_input` is a total function (it returns a `String`, never an
`Except`: the only fallible operation in its source, `int(...)`, has its
`ValueError` caught).  It returns the query for the literal `user_query`
directive; the stringified `result` of step `N` when the directive is a
well-formed `step:N...` reference, step `N` is in the outcome map and its
output is present (the succeeded case — spec section 3's invariant equates
`status = success` with output presence); and the query in every other case:
malformed or non-integer reference (`step_ref _ = none`), step missing from
the map, or step failed (output absent). -/
theorem c1_resolve_input_cases (input_source user_query : String)
    (step_outputs : List (Int × AgentResponse)) :
    (input_source = "user_query" →
      resolve_input input_source user_query step_outputs = user_query)
    ∧ (∀ n prior o, step_ref input_source = some n →
        dictGet step_outputs n = some prior → prior.output = some o →
        resolve_input input_source user_query step_outputs = pyStr o.result)
    ∧ (step_ref input_source = Option.none →
        resolve_input input_source user_query step_outputs = user_query)
    ∧ (∀ n, step_ref input_source = some n → dictGet step_outputs n = Option.none →
        resolve_input input_source user_query step_outputs = user_query)
    ∧ (∀ n prior, step_ref input_source = some n →
        dictGet step_outputs n = some prior → prior.output = Option.none →
        resolve_input input_source user_query step_outputs = user_query) := by
  refine ⟨?_, ?_, ?_, ?_, ?_⟩
  · intro h
    subst h
    rfl
  · intro n prior o hn hprior ho
    simp only [resolve_input_eq, hn, hprior, ho]
  · intro hn
    simp only [resolve_input_eq, hn]
  · intro n hn hprior
    simp only [resolve_input_eq, hn, hprior]
  · intro n prior hn hprior ho
    simp only [resolve_input_eq, hn, hprior, ho]

/-- Concrete instances of C1: `step:0` with a successful recorded step 0
resolves to the stringified result; `step:0` when step 0 failed (no output)
and `step:5` on an empty map both fall back to the query. -/
theorem c1_resolve_input_cases_witness :
    resolve_input "step:0" "orig"
        [(0, { agent_name := "document_summarizer_agent", status := "success",
               output := some { result := PyVal.int 42 } })] = "42"
    ∧ resolve_input "step:0" "orig"
        [(0, { agent_name := "document_summarizer_agent", status := "error",
               error := some { type := "http_error", message := "HTTP 500" } })] = "orig"
    ∧ resolve_input "step:5" "orig" [] = "orig" := by
  refine ⟨?_, ?_, ?_⟩
  · exact (c1_resolve_input_cases "step:0" "orig" _).2.1 0
      { agent_name := "document_summarizer_agent", status := "success",
        output := some { result := PyVal.int 42 } }
      { result := PyVal.int 42 } (by decide) rfl rfl
  · exact (c1_resolve_input_cases "step:0" "orig" _).2.2.2.2 0
      { agent_name := "document_summarizer_agent", status := "error",
        error := some { type := "http_error", message := "HTTP 500" } }
      (by decide) rfl rfl
  · exact (c1_resolve_input_cases "step:5" "orig" []).2.2.2.1 5 (by decide) rfl

/-- First-match hits the rule at index `i` when it fires and no earlier rule
does. -/
theorem first_match_at (lq : String) :
    ∀ (l : List HeurRule) (i : Nat) (r : HeurRule), l.get? i = some r →
      r.cond lq = true →
      (∀ j, j < i → ∀ r2, l.get? j = some r2 → r2.cond lq = false) →
      first_match l lq = some r.plan := by
  intro l
  induction l with
  | nil => intro i r hget _ _; simp [List.get?] at hget
  | cons a rest ih =>
    intro i r hget hf he
    cases i with
    | zero =>
      simp only [List.get?] at hget
      cases hget
      simp [first_match, hf]
    | succ n =>
      have ha : a.cond lq = false := he 0 (Nat.succ_pos n) a rfl
      simp only [first_match, ha, Bool.false_eq_true, if_false]
      exact ih n r hget hf (fun j hj r2 hr2 => he (j + 1) (Nat.succ_lt_succ hj) r2 hr2)

/-- First-match misses when no rule fires. -/
theorem first_match_none (lq : String) :
    ∀ (l : List HeurRule), (∀ i r, l.get? i = some r → r.cond lq = false) →
      first_match l lq = Option.none := by
  intro l
  induction l with
  | nil => intro _; rfl
  | cons a rest ih =>
    intro h
    have ha : a.cond lq = false := h 0 a rfl
    simp only [first_match, ha, Bool.false_eq_true, if_false]
    exact ih (fun i r hr => h (i + 1) r hr)

/-- First-match hits some rule when any rule fires. -/
theorem first_match_isSome (lq : String) :
    ∀ (l : List HeurRule) (i : Nat) (r : HeurRule), l.get? i = some r →
      r.cond lq = true → ∃ p, first_match l lq = some p := by
  intro l
  induction l with
  | nil => intro i r hget _; simp [List.get?] at hget
  | cons a rest ih =>
    intro i r hget hc
    by_cases ha : a.cond lq = true
    · exact ⟨a.plan, by simp [first_match, ha]⟩
    · have ha2 : a.cond lq = false := Bool.eq_false_iff.mpr ha
      cases i with
      | zero =>
        simp only [List.get?] at hget
        cases hget
        exact absurd hc ha
      | succ n =>
        obtain ⟨p, hp⟩ := ih n r hget hc
        exact ⟨p, by simp only [first_match, ha2, Bool.false_eq_true, if_false]; exact hp⟩

/-- C5 (amended): for every query on which heuristic rule `i` (in source
order) fires while no earlier rule does, `plan_tools_with_llm` returns exactly
that rule's fixed plan, for every registry, every history and every LLM-client
state — the heuristic path makes no LLM call and consults nothing else.  (The
claim as frozen — any query containing a rule's trigger substrings gets that
rule's plan — fails because the chain is first-match-wins; see the
counterexample.) -/
theorem c5_first_matching_rule (query : String) (i : Nat) (r : HeurRule)
    (hget : heuristic_table.get? i = some r)
    (hfires : r.cond (strLower query) = true)
    (hearlier : ∀ j, j < i → rule_fires j (strLower query) = false) :
    ∀ (registry : List AgentMetadata) (history : Option PyVal)
      (client : Option LLMClient),
      plan_tools_with_llm query registry history client = r.plan := by
  intro registry history client
  have he : ∀ j, j < i → ∀ r2, heuristic_table.get? j = some r2 →
      r2.cond (strLower query) = false := by
    intro j hj r2 hr2
    have := hearlier j hj
    simp only [rule_fires, hr2] at this
    exact this
  have hfm : first_match heuristic_table (strLower query) = some r.plan :=
    first_match_at (strLower query) heuristic_table i r hget hfires he
  simp only [plan_tools_with_llm, hfm]

/-- C5 scenario instance: `create task: fix login bug` fires the task-creation
rule (index 7) and no earlier rule, so the plan is the single
KnowledgeBaseBuilderAgent `create_task` step fed by the user query. -/
theorem c5_first_matching_rule_witness :
    plan_tools_with_llm "create task: fix login bug" [] Option.none Option.none =
      Plan.mk [PlanStep.mk 0 "KnowledgeBaseBuilderAgent" "create_task" "user_query"] :=
  c5_first_matching_rule "create task: fix login bug" 7
    ⟨kwAny ["create task", "new task", "add task", "task:", "i need to",
        "implement", "fix bug"],
      oneStep "KnowledgeBaseBuilderAgent" "create_task"⟩
    rfl (by decide) (by decide) [] Option.none Option.none

/-- C5 counterexample: the query `create task: regain focus` contains the
task-creation rule's trigger substring `create task`, yet `plan_tools_with_llm`
does not return the task-creation plan — the earlier focus rule wins and the
plan is the two-step deadline-then-focus-analyze sequence. -/
theorem c5_counterexample :
    strContains (strLower "create task: regain focus") "create task" = true
    ∧ plan_tools_with_llm "create task: regain focus" [] Option.none Option.none ≠
        Plan.mk [PlanStep.mk 0 "KnowledgeBaseBuilderAgent" "create_task" "user_query"]
    ∧ plan_tools_with_llm "create task: regain focus" [] Option.none Option.none =
        Plan.mk [PlanStep.mk 0 "deadline_guardian_agent" "deadline.monitor" "user_query",
          PlanStep.mk 1 "focus_enforcer_agent" "focus.analyze" "step:0.output.result"] :=
  ⟨by decide, by decide, by decide⟩

/-- C6: when no heuristic rule fires on the lowercased query and no LLM client
exists (`_get_openrouter_client()` returned `None`: no API key, missing openai
module, or construction failure), the planner returns the empty plan — the
out-of-scope signal — rather than raising. -/
theorem c6_no_heuristic_no_llm (query : String) (registry : List AgentMetadata)
    (history : Option PyVal)
    (h : ∀ i, i < heuristic_table.length → rule_fires i (strLower query) = false) :
    plan_tools_with_llm query registry history Option.none = Plan.mk [] := by
  have hfm : first_match heuristic_table (strLower query) = Option.none := by
    apply first_match_none
    intro i r hget
    have hi : i < heuristic_table.length := by
      by_contra hne
      rw [List.get?_eq_none.mpr (Nat.le_of_not_lt hne)] at hget
      exact absurd hget (by simp)
    have := h i hi
    simp only [rule_fires, hget] at this
    exact this
  simp only [plan_tools_with_llm, hfm]

/-- C6 instance: `what's the weather today` fires no heuristic rule, so with
no LLM client the plan is empty. -/
theorem c6_no_heuristic_no_llm_witness :
    plan_tools_with_llm "what\x27s the weather today" [] Option.none Option.none =
      Plan.mk [] :=
  c6_no_heuristic_no_llm "what\x27s the weather today" [] Option.none (by decide)

/-- C10: when any heuristic rule fires on the lowercased query, the planner's
result does not depend on the registry argument at all (nor on the history or
the LLM-client state): any two registries — including the empty one — give
identical plans, so a heuristic plan can name agents that do not exist in the
registry actually passed in. -/
theorem c10_heuristic_ignores_registry (query : String)
    (h : ∃ i, rule_fires i (strLower query) = true) :
    ∀ (reg1 reg2 : List AgentMetadata) (h1 h2 : Option PyVal)
      (c1 c2 : Option LLMClient),
      plan_tools_with_llm query reg1 h1 c1 = plan_tools_with_llm query reg2 h2 c2 := by
  obtain ⟨i, hi⟩ := h
  cases hget : heuristic_table.get? i with
  | none =>
    simp only [rule_fires, hget] at hi
    exact absurd hi (by simp)
  | some r =>
    have hc : r.cond (strLower query) = true := by
      simp only [rule_fires, hget] at hi
      exact hi
    obtain ⟨p, hp⟩ := first_match_isSome (strLower query) heuristic_table i r hget hc
    intro reg1 reg2 h1 h2 c1 c2
    simp only [plan_tools_with_llm, hp]

/-- C10 instance: with the heuristic query `create task: fix login bug`, the
empty registry and a singleton registry give the same plan, and that plan
names `KnowledgeBaseBuilderAgent` even though the registry passed in was
empty. -/
theorem c10_heuristic_ignores_registry_witness :
    plan_tools_with_llm "create task: fix login bug" [] Option.none Option.none =
      plan_tools_with_llm "create task: fix login bug"
        [{ name := "document_reviewer_agent", intents := ["document.review"] }]
        Option.none Option.none
    ∧ (plan_tools_with_llm "create task: fix login bug" [] Option.none
        Option.none).steps.map PlanStep.agent = ["KnowledgeBaseBuilderAgent"] :=
  ⟨c10_heuristic_ignores_registry "create task: fix login bug" ⟨7, by decide⟩
      [] [{ name := "document_reviewer_agent", intents := ["document.review"] }]
      Option.none Option.none Option.none Option.none,
    by decide⟩

/-- C4: independently of the query text, the history and the LLM backend
state, `compose_final_answer` returns the fixed out-of-scope message on an
empty outcome map, and the fixed total-failure message on a non-empty map in
which every outcome has status `error`. -/
theorem c4_fixed_messages (query : String) (step_outputs : List (Int × AgentResponse))
    (history : Option PyVal) (backend : AnswerBackend) :
    (step_outputs = [] →
      compose_final_answer query step_outputs history backend =
        Except.ok "This information is not in my scope.")
    ∧ (step_outputs ≠ [] → (∀ p ∈ step_outputs, (p.2).status = "error") →
        compose_final_answer query step_outputs history backend =
          Except.ok "I could not complete your request because every tool failed. Please try again.") := by
  constructor
  · intro h
    subst h
    rfl
  · intro hne hall
    have hsucc : successful_of step_outputs = [] := by
      unfold successful_of
      rw [List.filter_eq_nil_iff]
      intro s hs
      obtain ⟨p, hp, hps⟩ := List.mem_map.mp hs
      have herr := hall p hp
      subst hps
      simp [AgentResponse.is_success, herr]
    cases step_outputs with
    | nil => exact absurd rfl hne
    | cons a t =>
      simp only [compose_final_answer, List.isEmpty_cons, hsucc, List.isEmpty_nil,
        if_false, if_true, Bool.false_eq_true]

/-- C4 instances: the out-of-scope message on the empty map and the
total-failure message on an all-error map, under two different backend
states. -/
theorem c4_fixed_messages_witness :
    compose_final_answer "anything" [] Option.none (AnswerBackend.answers "hi") =
      Except.ok "This information is not in my scope."
    ∧ compose_final_answer "anything"
        [(0, { agent_name := "budget_tracker_agent", status := "error",
               error := some { type := "network_error", message := "timeout" } }),
         (1, { agent_name := "email_priority_agent", status := "error",
               error := some { type := "http_error", message := "HTTP 500" } })]
        Option.none AnswerBackend.unavailable =
      Except.ok "I could not complete your request because every tool failed. Please try again." :=
  ⟨(c4_fixed_messages "anything" [] Option.none (AnswerBackend.answers "hi")).1 rfl,
    (c4_fixed_messages "anything" _ Option.none AnswerBackend.unavailable).2
      (by simp) (by decide)⟩

/-- C7: `_validate_steps` returns exactly the steps that deserialize into the
PlanStep shape, whose agent is in the registry map and whose intent is allowed
there — the `filterMap`-then-`filter` of the raw list, which preserves the
relative order of the survivors and drops each failing step without aborting
the remaining ones. -/
theorem c7_validate_steps_exact (raw_steps : List PyVal) (registry : List AgentMetadata) :
    validate_steps raw_steps registry =
      (raw_steps.filterMap parse_plan_step).filter (step_allowed registry) := by
  induction raw_steps with
  | nil => rfl
  | cons v rest ih =>
    cases hp : parse_plan_step v with
    | none => simp only [validate_steps, hp, List.filterMap_cons, ih]
    | some s =>
      simp only [validate_steps, hp, List.filterMap_cons, List.filter_cons]
      cases hr : registry_get registry s.agent with
      | none => simp [step_allowed, hr, ih]
      | some m =>
        by_cases hi : m.intents.contains s.intent
        · simp [step_allowed, hr, hi, ih]
        · simp [step_allowed, hr, hi, ih]

/-- Writing into an outcome dict never leaves it empty. -/
theorem dictSet_isEmpty_false {α : Type} (l : List (Int × α)) (k : Int) (v : α) :
    (dictSet l k v).isEmpty = false := by
  cases l with
  | nil => rfl
  | cons a t =>
    cases a
    simp only [dictSet]
    split <;> rfl

/-- C2 (amended): after a step whose agent is `KnowledgeBaseBuilderAgent`,
whose intent is `create_task` and whose call succeeded, the executor records
the triggering step's outcome unchanged and then: if `task_dependency_agent`
is in the registry, exactly one additional entry — the cascaded call's
response, whatever its status — is stored under `max(existing ids) + 1` and
one used-agent entry naming the dependency worker is appended; if the
dependency worker is absent from the registry, the caught `KeyError` adds no
entry.  In both cases execution continues with the remaining plan steps, so
the cascade's outcome never changes the triggering step's recorded status and
never prevents later steps from executing.  (The claim as frozen asserts the
additional entry unconditionally, "including the dependency worker being
absent from the registry" — see the counterexample.) -/
theorem c2_cascade_amended (query : String) (registry : List AgentMetadata)
    (ca : AgentMetadata → String → String → AgentResponse)
    (ct : AgentMetadata → String → AgentResponse)
    (outs : List (Int × AgentResponse)) (used : List UsedAgentEntry)
    (step : PlanStep) (rest : List PlanStep) (meta : AgentMetadata)
    (hfind : find_agent_by_name step.agent registry = some meta)
    (hagent : step.agent = "KnowledgeBaseBuilderAgent")
    (hintent : step.intent = "create_task")
    (resp : AgentResponse)
    (hresp : ca meta step.intent (resolve_input step.input_source query outs) = resp)
    (hsucc : resp.status = "success") :
    (∀ tda, find_agent_by_name "task_dependency_agent" registry = some tda →
      exec_steps query registry ca ct (step :: rest) outs used =
        exec_steps query registry ca ct rest
          (dictSet (dictSet outs step.step_id resp)
            (maxKey (dictSet outs step.step_id resp) + 1)
            (ct tda "task.resolve_dependencies"))
          (used ++ [⟨meta.name, step.intent, resp.status⟩,
            ⟨tda.name, "task.resolve_dependencies",
              (ct tda "task.resolve_dependencies").status⟩]))
    ∧ (find_agent_by_name "task_dependency_agent" registry = Option.none →
      exec_steps query registry ca ct (step :: rest) outs used =
        exec_steps query registry ca ct rest
          (dictSet outs step.step_id resp)
          (used ++ [⟨meta.name, step.intent, resp.status⟩])) := by
  have hcond : (step.agent == "KnowledgeBaseBuilderAgent" && resp.status == "success"
      && step.intent == "create_task") = true := by
    simp [hagent, hintent, hsucc]
  constructor
  · intro tda htda
    simp only [exec_steps, exec_step, hfind, hresp, hcond, htda,
      dictSet_isEmpty_false, Bool.false_eq_true, if_false]
    simp [List.append_assoc]
  · intro htda
    simp only [exec_steps, exec_step, hfind, hresp, hcond, htda]
    simp [List.append_assoc]

/-- C2 amended-claim instance: a one-step task-creation plan with both workers
registered and a cascade oracle that fails — the outcome map gains exactly the
cascaded entry under step id 1 with its error status, the triggering step's
recorded status stays `success`, and both calls are logged. -/
theorem c2_cascade_amended_witness :
    execute_plan "q" (Plan.mk [kbbStepW]) [kbbMetaW, tdaMetaW] caW ctW =
      Except.ok ([(0, respW), (1, tdaRespW)],
        [⟨"KnowledgeBaseBuilderAgent", "create_task", "success"⟩,
          ⟨"task_dependency_agent", "task.resolve_dependencies", "error"⟩]) := by
  have h := (c2_cascade_amended "q" [kbbMetaW, tdaMetaW] caW ctW [] [] kbbStepW []
    kbbMetaW rfl rfl rfl respW rfl rfl).1 tdaMetaW rfl
  exact h.trans rfl

/-- C2 counterexample (the claim as frozen): with `task_dependency_agent`
absent from the registry, a successful `KnowledgeBaseBuilderAgent`
`create_task` step produces an outcome map with exactly one entry — no
additional entry addressed to the dependency worker exists, contradicting the
claim's "exactly one additional entry ... regardless ... including the
dependency worker being absent from the registry". -/
theorem c2_counterexample :
    execute_plan "q" (Plan.mk [kbbStepW]) [kbbMetaW] caW ctW =
      Except.ok ([(0, respW)],
        [⟨"KnowledgeBaseBuilderAgent", "create_task", "success"⟩]) := by
  rfl

/-- When the main lookup of a step's agent succeeds, the loop body never
raises (the cascade's `KeyError` is caught). -/
theorem exec_step_isOk (query : String) (registry : List AgentMetadata)
    (ca : AgentMetadata → String → String → AgentResponse)
    (ct : AgentMetadata → String → AgentResponse)
    (outs : List (Int × AgentResponse)) (used : List UsedAgentEntry)
    (step : PlanStep) (meta : AgentMetadata)
    (h : find_agent_by_name step.agent registry = some meta) :
    ∃ r, exec_step query registry ca ct outs used step = Except.ok r := by
  unfold exec_step
  rw [h]
  dsimp only
  split
  · split
    · exact ⟨_, rfl⟩
    · exact ⟨_, rfl⟩
  · exact ⟨_, rfl⟩

/-- C9: for every plan containing a step whose agent is absent from the
registry, `execute_plan` ends in the uncaught `KeyError` from
`find_agent_by_name` raised before that step is dispatched: the result is an
`Except.error`, so no error outcome is recorded for the step and the outcomes
of the already-executed earlier steps are not returned to the caller. -/
theorem c9_unknown_agent_raises (query : String) (plan : Plan)
    (registry : List AgentMetadata)
    (ca : AgentMetadata → String → String → AgentResponse)
    (ct : AgentMetadata → String → AgentResponse)
    (h : ∃ step ∈ plan.steps, find_agent_by_name step.agent registry = Option.none) :
    ∃ msg, execute_plan query plan registry ca ct = Except.error msg := by
  have main : ∀ (steps : List PlanStep) (outs : List (Int × AgentResponse))
      (used : List UsedAgentEntry),
      (∃ step ∈ steps, find_agent_by_name step.agent registry = Option.none) →
      ∃ msg, exec_steps query registry ca ct steps outs used = Except.error msg := by
    intro steps
    induction steps with
    | nil =>
      intro outs used h2
      obtain ⟨s, hs, _⟩ := h2
      simp at hs
    | cons a rest ih =>
      intro outs used h2
      cases hfind : find_agent_by_name a.agent registry with
      | none =>
        refine ⟨"Agent " ++ a.agent ++ " not found in registry", ?_⟩
        simp only [exec_steps, exec_step, hfind]
      | some meta =>
        obtain ⟨s, hs, hsn⟩ := h2
        have hs_rest : s ∈ rest := by
          cases List.mem_cons.mp hs with
          | inl heq =>
            subst heq
            rw [hfind] at hsn
            exact absurd hsn (by simp)
          | inr hmem => exact hmem
        obtain ⟨r, hr⟩ := exec_step_isOk query registry ca ct outs used a meta hfind
        obtain ⟨o, u⟩ := r
        obtain ⟨msg, hmsg⟩ := ih o u ⟨s, hs_rest, hsn⟩
        refine ⟨msg, ?_⟩
        simp only [exec_steps, hr]
        exact hmsg
  exact main plan.steps [] [] h

/-- C9 instance: a plan whose only step names an agent missing from the
registry makes `execute_plan` return the raised error. -/
theorem c9_unknown_agent_raises_witness :
    ∃ msg, execute_plan "q" (Plan.mk [PlanStep.mk 0 "ghost_agent" "x" "user_query"])
      [kbbMetaW] caW ctW = Except.error msg :=
  c9_unknown_agent_raises "q" (Plan.mk [PlanStep.mk 0 "ghost_agent" "x" "user_query"])
    [kbbMetaW] caW ctW ⟨PlanStep.mk 0 "ghost_agent" "x" "user_query", by simp, rfl⟩

/-- The reviewer loop skips every successful outcome that is not a
document-reviewer outcome with an output. -/
theorem reviewer_scan_skip (l : List AgentResponse) :
    ∀ (pre : List AgentResponse),
      (∀ t ∈ pre, (t.agent_name == "document_reviewer_agent" && t.output.isSome) = false) →
      reviewer_scan (pre ++ l) = reviewer_scan l := by
  intro pre
  induction pre with
  | nil => intro _; rfl
  | cons a t ih =>
    intro hpre
    have ha := hpre a (List.mem_cons_self a t)
    have hrest : ∀ x ∈ t, (x.agent_name == "document_reviewer_agent" && x.output.isSome) = false :=
      fun x hx => hpre x (List.mem_cons_of_mem a hx)
    cases ho : a.output with
    | none =>
      simp only [List.cons_append, reviewer_scan, ho]
      exact ih hrest
    | some o =>
      have hname : (a.agent_name == "document_reviewer_agent") = false := by
        rw [ho] at ha
        simpa using ha
      simp only [List.cons_append, reviewer_scan, ho, hname, Bool.false_eq_true, if_false]
      exact ih hrest

/-- C8 (amended): whenever the first successful outcome carrying an output
and addressed `document_reviewer_agent` has a result whose `str()` parses as
JSON and renders to markdown without raising, the synthesizer returns exactly
that deterministic markdown text, for every history and every LLM backend
state — the LLM branch is never consulted.  (The claim as frozen gates on the
payload's shape alone; the code gates on the producing agent's name — see the
counterexample, where a review-shaped payload from another agent is not
rendered.) -/
theorem c8_reviewer_markdown (query : String)
    (step_outputs : List (Int × AgentResponse))
    (pre post : List AgentResponse) (s : AgentResponse) (o : OutputModel)
    (d : PyVal) (md : String)
    (hdecomp : successful_of step_outputs = pre ++ s :: post)
    (hpre : ∀ t ∈ pre, (t.agent_name == "document_reviewer_agent" && t.output.isSome) = false)
    (hagent : s.agent_name = "document_reviewer_agent")
    (ho : s.output = some o)
    (hparse : json_loads (pyStr o.result) = Except.ok d)
    (hrender : format_review_as_markdown d = Except.ok md) :
    ∀ (history : Option PyVal) (backend : AnswerBackend),
      compose_final_answer query step_outputs history backend = Except.ok md := by
  intro history backend
  have hscan : reviewer_scan (successful_of step_outputs) = Except.ok (some md) := by
    rw [hdecomp, reviewer_scan_skip (s :: post) pre hpre]
    simp only [reviewer_scan, ho, hagent, beq_self_eq_true, if_true,
      review_attempt, hparse, hrender]
  have hne : step_outputs.isEmpty = false := by
    cases hso : step_outputs with
    | nil =>
      rw [hso] at hdecomp
      exact absurd hdecomp.symm (by simp [successful_of])
    | cons a t => rfl
  have hse : (successful_of step_outputs).isEmpty = false := by
    rw [hdecomp]
    cases pre <;> rfl
  simp only [compose_final_answer, hne, Bool.false_eq_true, if_false, hse, hscan]

/-- C8 amended-claim instance: one successful reviewer outcome whose result is
a review JSON string yields its markdown rendering even with a live LLM
backend configured. -/
theorem c8_reviewer_markdown_witness :
    compose_final_answer "review my doc"
        [(0, { agent_name := "document_reviewer_agent", status := "success",
               output := some { result := PyVal.str "\x7b\"overall_score\": 1, \"summary\": \"ok\"\x7d" } })]
        Option.none (AnswerBackend.answers "llm text that must not be used") =
      Except.ok "## Document Review Summary\n\n**Overall Score:** 100.0%\n\nok\n" :=
  c8_reviewer_markdown "review my doc"
    [(0, { agent_name := "document_reviewer_agent", status := "success",
           output := some { result := PyVal.str "\x7b\"overall_score\": 1, \"summary\": \"ok\"\x7d" } })]
    [] []
    { agent_name := "document_reviewer_agent", status := "success",
      output := some { result := PyVal.str "\x7b\"overall_score\": 1, \"summary\": \"ok\"\x7d" } }
    { result := PyVal.str "\x7b\"overall_score\": 1, \"summary\": \"ok\"\x7d" }
    (PyVal.dict [("overall_score", PyVal.int 1), ("summary", PyVal.str "ok")])
    "## Document Review Summary\n\n**Overall Score:** 100.0%\n\nok\n"
    rfl (by intro t ht; simp at ht) rfl rfl (by rfl) rfl
    Option.none (AnswerBackend.answers "llm text that must not be used")

/-- C8 counterexample (the claim as frozen): a successful outcome from
`focus_enforcer_agent` whose result parses as a JSON document-review payload
is not rendered — the synthesizer returns the raw stitched string, which
differs from the markdown rendering of that payload, because the code gates
the rendering on `agent_name == "document_reviewer_agent"`. -/
theorem c8_counterexample :
    json_loads "\x7b\"overall_score\": 1, \"summary\": \"ok\"\x7d" =
      Except.ok (PyVal.dict [("overall_score", PyVal.int 1), ("summary", PyVal.str "ok")])
    ∧ format_review_as_markdown
        (PyVal.dict [("overall_score", PyVal.int 1), ("summary", PyVal.str "ok")]) =
      Except.ok "## Document Review Summary\n\n**Overall Score:** 100.0%\n\nok\n"
    ∧ compose_final_answer "q"
        [(0, { agent_name := "focus_enforcer_agent", status := "success",
               output := some { result := PyVal.str "\x7b\"overall_score\": 1, \"summary\": \"ok\"\x7d" } })]
        Option.none AnswerBackend.unavailable =
      Except.ok "\x7b\"overall_score\": 1, \"summary\": \"ok\"\x7d"
    ∧ ("\x7b\"overall_score\": 1, \"summary\": \"ok\"\x7d" : String) ≠
        "## Document Review Summary\n\n**Overall Score:** 100.0%\n\nok\n" :=
  ⟨rfl, rfl, rfl, by decide⟩

/-- C3 (refuting evaluation): on a successful `document_reviewer_agent`
outcome whose result is the JSON text with a string-valued `overall_score`,
`compose_final_answer` does not return a string at all: the `.1%` format
specifier raises `ValueError`, which the surrounding
`except (json.JSONDecodeError, AttributeError)` clause does not catch, so the
exception escapes the synthesizer. -/
theorem c3_compose_raises_on_string_score :
    compose_final_answer "q"
        [(0, { agent_name := "document_reviewer_agent", status := "success",
               output := some { result := PyVal.str "\x7b\"overall_score\": \"high\"\x7d" } })]
        Option.none AnswerBackend.unavailable =
      Except.error PyErr.valueError := by
  rfl
